import Mathlib

/-
Verification of the conversation/session state machine of
src/src/components/Chatbot.tsx (a client-side chat-session manager).

The TypeScript component is embedded shallowly:

* React `useState` cells become the fields of `SessionState`; every event
  handler becomes a pure state-transition function on `SessionState`.
* The JavaScript record `Record<string, ConversationMessage[]>` becomes an
  association list (`setConv` mirrors `{ ...previous, [id]: updated }`,
  `lookupConv` mirrors indexing).
* The one asynchronous suspension point, `window.setTimeout(..., 600)` in
  `handleSubmit`, is modelled by a `pending` queue of scheduled completions;
  `completeDelayed` is the timer firing.  The timeout is never cancelled in
  the source, so no transition removes an element of `pending` except
  `completeDelayed`.
* `createId()` (= `Math.random().toString(36).slice(2, 10)`) is impure; the
  fresh identifiers an operation generates are passed to its embedding as
  explicit arguments, and `createId` itself is modelled as a function of the
  base-36 digits of the random draw.
* TypeScript optional fields become `Option`; the `reaction` field's two
  absent states (`undefined` and `null`) are collapsed into `none`, which is
  sound because the component only ever compares that field with `===` to a
  concrete reaction value.
-/

namespace Chatbot

/-- Roles of a conversation message, from `type Role = "user" | "assistant"`. -/
inductive Role where
  | user
  | assistant
deriving DecidableEq

/-- Reactions, from `reaction?: "upvote" | "downvote" | null`. -/
inductive Reaction where
  | upvote
  | downvote
deriving DecidableEq

/-- Mirrors `type Attachment` (id, name, type, size, preview data URI). -/
structure Attachment where
  id : String
  name : String
  type : String
  size : Nat
  preview : String
deriving DecidableEq

/-- Mirrors `type ConversationMessage`. -/
structure ConversationMessage where
  id : String
  role : Role
  name : String
  avatarFallback : String
  avatarUrl : Option String := none
  content : String
  markdown : Option Bool := none
  attachments : Option (List Attachment) := none
  reaction : Option Reaction := none
deriving DecidableEq

/-- Mirrors `type MessageTemplate = Omit<ConversationMessage, "id" | "attachments" | "reaction">`. -/
structure MessageTemplate where
  role : Role
  name : String
  avatarFallback : String
  avatarUrl : Option String := none
  content : String
  markdown : Option Bool := none
deriving DecidableEq

/-- Mirrors `type HistoryConversation` (a history summary entry). -/
structure HistoryConversation where
  id : String
  title : String
  preview : String
  timestamp : String
deriving DecidableEq

/-- Mirrors `type HistoryGroup`. -/
structure HistoryGroup where
  label : String
  conversations : List HistoryConversation
deriving DecidableEq

/-- Mirrors the `models` entries of `type ProviderOption`. -/
structure ModelOption where
  id : String
  label : String
deriving DecidableEq

/-- Mirrors `type ProviderOption`. -/
structure ProviderOption where
  id : String
  label : String
  models : List ModelOption
deriving DecidableEq

/-- First entry of the `providers` constant (OpenAI). -/
def providerOpenAI : ProviderOption :=
  { id := "openai", label := "OpenAI",
    models := [{ id := "gpt-4o", label := "GPT-4o" },
               { id := "gpt-4o-mini", label := "GPT-4o mini" },
               { id := "o3-mini", label := "O3 mini" }] }

/-- The `providers` constant of the component. -/
def providers : List ProviderOption :=
  [providerOpenAI,
   { id := "anthropic", label := "Anthropic",
     models := [{ id := "claude-3.7-sonnet", label := "Claude 3.7 Sonnet" },
                { id := "claude-3.5-haiku", label := "Claude 3.5 Haiku" }] },
   { id := "google", label := "Google Gemini",
     models := [{ id := "gemini-2.0-flash", label := "Gemini 2.0 Flash" },
                { id := "gemini-1.5-pro", label := "Gemini 1.5 Pro" }] },
   { id := "groq", label := "Groq",
     models := [{ id := "llama-3.1-70b", label := "Llama 3.1 70B" },
                { id := "mixtral-8x7b", label := "Mixtral 8x7B" }] }]

/-- The `historySeed` constant of the component. -/
def historySeed : List HistoryGroup :=
  [{ label := "Today",
     conversations :=
       [{ id := "today-1", title := "Product launch prep",
          preview := "Drafted announcement copy and QA checklist for beta release.",
          timestamp := "2h ago" },
        { id := "today-2", title := "Onboarding survey",
          preview := "Outlined questions that capture first-week friction and success signals.",
          timestamp := "4h ago" },
        { id := "today-3", title := "Design critique notes",
          preview := "Summarised feedback threads and grouped by priority / owner.",
          timestamp := "6h ago" }] },
   { label := "Earlier this week",
     conversations :=
       [{ id := "week-1", title := "Support triage ideas",
          preview := "Generated macros for the top friction requests from this week.",
          timestamp := "3 days ago" },
        { id := "week-2", title := "Growth experiment doc",
          preview := "Mapped out hypotheses, guardrail metrics, and rollout cadence.",
          timestamp := "5 days ago" }] }]

/-- Models `createId` = `Math.random().toString(36).slice(2, 10)`.  The
argument `draw` stands for the fractional base-36 digit characters of the
random number produced by `Math.random()` (what follows `0.` in its base-36
rendering, as emitted by `Number.prototype.toString(36)`); `slice(2, 10)`
keeps the first eight of them. -/
def createId (draw : List Char) : String :=
  String.mk (draw.take 8)

/-- Models `String.prototype.trim`: drops leading and trailing whitespace. -/
def jsTrim (str : String) : String :=
  String.mk (((str.data.dropWhile Char.isWhitespace).reverse.dropWhile
    Char.isWhitespace).reverse)

/-- Models `Array.prototype.join(sep)` on a list of strings. -/
def joinWith (sep : String) : List String → String
  | [] => ""
  | [x] => x
  | x :: y :: xs => x ++ sep ++ joinWith sep (y :: xs)

/-- The `messageTemplates` constant of the component. -/
def messageTemplates : List MessageTemplate :=
  [{ role := Role.assistant, name := "Nova", avatarFallback := "NO",
     content := "Hey there! I'm Nova, a prompt-kit powered assistant. Ask me anything about your product ideas, technical questions, or research tasks and I'll sketch out a plan you can wire up to your favourite model." },
   { role := Role.user, name := "You", avatarFallback := "YO",
     content := "Let's create a user interview outline that digs into motivation and workflow pains." },
   { role := Role.assistant, name := "Nova", avatarFallback := "NO",
     markdown := some true,
     content := joinWith "\n"
       ["Absolutely — here's a structured outline you can use:",
        "",
        "### Interview Outline",
        "1. **Warm up** — \"Can you tell me about your role and day-to-day responsibilities?\"",
        "2. **Motivation** — \"What made you start using [product/workflow]?\"",
        "3. **Current process** — \"Walk me through your last attempt step-by-step.\"",
        "4. **Pain points** — \"Where does it feel slow, confusing, or fragile?\"",
        "5. **Desired outcomes** — \"If this was effortless, what would that unlock for you?\"",
        "",
        "Happy to tailor this if you share the audience or use case!"] }]

/-- Instantiates one template as `createInitialMessages` does:
`{ ...template, id: createId(), attachments: role === "user" ? [] : undefined, reaction: null }`. -/
def instantiateTemplate (template : MessageTemplate) (mid : String) : ConversationMessage :=
  { id := mid, role := template.role, name := template.name,
    avatarFallback := template.avatarFallback, avatarUrl := template.avatarUrl,
    content := template.content, markdown := template.markdown,
    attachments := if template.role = Role.user then some [] else none,
    reaction := none }

/-- Mirrors `createInitialMessages`; `ids` are the identifiers produced by the
three `createId()` calls (one per template). -/
def createInitialMessages (ids : List String) : List ConversationMessage :=
  (messageTemplates.zip ids).map (fun p => instantiateTemplate p.1 p.2)

/-- Mirrors `createPlaceholderConversation`; `mid` is the identifier produced
by its `createId()` call. -/
def createPlaceholderConversation (mid : String) (title preview : String) :
    List ConversationMessage :=
  [{ id := mid, role := Role.assistant, name := "Nova", avatarFallback := "NO",
     markdown := some true, reaction := none,
     content := joinWith "\n"
       ["This is a placeholder view for **" ++ title ++ "**.",
        "",
        preview,
        "",
        "Load real messages here by persisting conversations and hydrating them when the user opens the thread."] }]

/-- Mirrors `cloneHistoryGroups` (a per-summary spread copy of every group). -/
def cloneHistoryGroups (groups : List HistoryGroup) : List HistoryGroup :=
  groups.map (fun sec =>
    { label := sec.label,
      conversations := sec.conversations.map (fun conversation =>
        { id := conversation.id, title := conversation.title,
          preview := conversation.preview, timestamp := conversation.timestamp }) })

/-- Mirrors `findConversationTitle`. -/
def findConversationTitle (groups : List HistoryGroup) (conversationId : String) : String :=
  match groups with
  | [] => "Untitled chat"
  | sec :: rest =>
    match sec.conversations.find? (fun entry => decide (entry.id = conversationId)) with
    | some conversation => conversation.title
    | none => findConversationTitle rest conversationId

/-- Mirrors `truncateText`; the component always leaves the `limit` parameter
at its default of 80. -/
def truncateText (text : String) : String :=
  if text.length ≤ 80 then text else String.mk (text.data.take 80) ++ "…"

/-- The `existing` summary located by `promoteConversation`'s search loop: the
first summary with the given id, scanning groups in order. -/
def findInGroups : List HistoryGroup → String → Option HistoryConversation
  | [], _ => none
  | sec :: rest, conversationId =>
    match sec.conversations.find? (fun c => decide (c.id = conversationId)) with
    | some c => some c
    | none => findInGroups rest conversationId

/-- The splice performed by `promoteConversation`'s search loop: remove the
first summary with the given id from the first group that contains one. -/
def removeFromGroups : List HistoryGroup → String → List HistoryGroup
  | [], _ => []
  | sec :: rest, conversationId =>
    if sec.conversations.any (fun c => decide (c.id = conversationId)) then
      { sec with
        conversations := sec.conversations.eraseP (fun c => decide (c.id = conversationId)) } :: rest
    else
      sec :: removeFromGroups rest conversationId

/-- The final step of `promoteConversation`:
`next[0].conversations = [updated, ...next[0].conversations.filter(c => c.id !== updated.id)]`. -/
def insertAtFront (updated : HistoryConversation) : List HistoryGroup → List HistoryGroup
  | [] => []
  | sec :: rest =>
    { sec with
      conversations := updated :: sec.conversations.filter (fun c => decide (c.id ≠ updated.id)) } :: rest

/-- Mirrors `promoteConversation`: clone the groups, splice out the existing
summary for `conversationId` (if any), rebuild it with `updater`, create a
default first group when the index is empty, and insert the result at the
front of the first group. -/
def promoteConversation (groups : List HistoryGroup) (conversationId : String)
    (updater : Option HistoryConversation → HistoryConversation) : List HistoryGroup :=
  let next := cloneHistoryGroups groups
  let existing := findInGroups next conversationId
  let next1 := removeFromGroups next conversationId
  let updated := updater existing
  let next2 := if next1.isEmpty then [{ label := "Today", conversations := [] }] else next1
  insertAtFront updated next2

/-- All summary identifiers of one group's conversation list. -/
def idsOfConvs (cs : List HistoryConversation) : List String :=
  cs.map (fun c => c.id)

/-- All summary identifiers across a whole history index, in order. -/
def idsOf : List HistoryGroup → List String
  | [] => []
  | sec :: rest => idsOfConvs sec.conversations ++ idsOf rest

/-- All summaries across a whole history index, in order. -/
def allConvs : List HistoryGroup → List HistoryConversation
  | [] => []
  | sec :: rest => sec.conversations ++ allConvs rest

/-- The conversation store `Record<string, ConversationMessage[]>` as an
association list from conversation identifier to message list. -/
abbrev ConversationMap : Type := List (String × List ConversationMessage)

/-- Indexing `previous[conversationId]` on the conversation store (first
binding of the key; `setConv` keeps keys unique so this is the JS record
read). -/
def lookupConv : ConversationMap → String → Option (List ConversationMessage)
  | [], _ => none
  | p :: t, conversationId =>
    if p.1 = conversationId then some p.2 else lookupConv t conversationId

/-- The record update `{ ...previous, [conversationId]: updated }`: replaces
the value of an existing key, otherwise adds the key. -/
def setConv (m : ConversationMap) (conversationId : String)
    (updated : List ConversationMessage) : ConversationMap :=
  if m.any (fun p => decide (p.1 = conversationId)) then
    m.map (fun p => if p.1 = conversationId then (conversationId, updated) else p)
  else
    m ++ [(conversationId, updated)]

/-- The `useState` cells of the component gathered into one session state,
plus the queue `pending` of scheduled (not yet fired) `setTimeout`
completions from `handleSubmit`, each recording the conversation it will
append to and the assistant message it will append. -/
structure SessionState where
  historyGroups : List HistoryGroup
  conversations : ConversationMap
  activeConversationId : String
  activeConversationTitle : String
  chatCounter : Nat
  composerAttachments : List Attachment
  copiedMessageId : Option String
  input : String
  isGenerating : Bool
  selectedProviderId : String
  selectedModelId : String
  isSidebarOpen : Bool
  pending : List (String × ConversationMessage)

/-- The message list of one conversation as the UI reads it
(`conversations[activeConversationId] ?? []`). -/
def convAt (s : SessionState) (conversationId : String) : List ConversationMessage :=
  (lookupConv s.conversations conversationId).getD []

/-- Mirrors `updateConversationMessages`. -/
def updateConversationMessages (conversationId : String)
    (updater : List ConversationMessage → List ConversationMessage)
    (s : SessionState) : SessionState :=
  { s with conversations :=
      (setConv s.conversations conversationId
        (updater ((lookupConv s.conversations conversationId).getD []))) }

/-- Mirrors `activeProvider` =
`providers.find(p => p.id === selectedProviderId) ?? providers[0]`. -/
def activeProvider (s : SessionState) : ProviderOption :=
  (providers.find? (fun provider => decide (provider.id = s.selectedProviderId))).getD
    providerOpenAI

/-- Mirrors `activeModel` =
`activeProvider.models.find(m => m.id === selectedModelId) ?? activeProvider.models[0]`.
The `headD` default is never reached: every provider in the constant list has
a non-empty model list. -/
def activeModel (s : SessionState) : ModelOption :=
  ((activeProvider s).models.find? (fun model => decide (model.id = s.selectedModelId))).getD
    ((activeProvider s).models.headD { id := "", label := "" })

/-- Mirrors `hasPendingInput` =
`input.trim().length > 0 || composerAttachments.length > 0`. -/
def hasPendingInput (s : SessionState) : Bool :=
  decide (0 < (jsTrim s.input).length) || decide (0 < s.composerAttachments.length)

/-- The spread copy `{ ...attachment }` taken by `handleSubmit` when it drains
the composer buffer. -/
def copyAttachment (attachment : Attachment) : Attachment :=
  { id := attachment.id, name := attachment.name, type := attachment.type,
    size := attachment.size, preview := attachment.preview }

/-- The drained attachment snapshot
`composerAttachments.map(attachment => ({ ...attachment }))`. -/
def drainedAttachments (s : SessionState) : List Attachment :=
  s.composerAttachments.map copyAttachment

/-- The `attachmentsSummary` string for a positive attachment count. -/
def attachmentsSummaryStr (n : Nat) : String :=
  "Shared " ++ toString n ++ " attachment" ++ (if 1 < n then "s" else "")

/-- Mirrors `attachmentsSummary` = the summary when there are attachments,
`undefined` otherwise. -/
def attachmentsSummaryOpt (n : Nat) : Option String :=
  if 0 < n then some (attachmentsSummaryStr n) else none

/-- JavaScript `prompt || attachmentsSummary || "Sent a message"`: the empty
string and `undefined` are falsy, any other string is truthy. -/
def firstTruthy (prompt : String) (summary : Option String) (fallback : String) : String :=
  if prompt ≠ "" then prompt
  else
    match summary with
    | some str => if str ≠ "" then str else fallback
    | none => fallback

/-- The user-message content computed by `handleSubmit`. -/
def userContentOf (s : SessionState) : String :=
  firstTruthy (jsTrim s.input)
    (attachmentsSummaryOpt (drainedAttachments s).length) "Sent a message"

/-- The `userMessage` built by `handleSubmit`; `uId` is its `createId()`. -/
def userMessageOf (uId : String) (s : SessionState) : ConversationMessage :=
  { id := uId, role := Role.user, name := "You", avatarFallback := "YO",
    content := userContentOf s,
    attachments :=
      if (drainedAttachments s).length ≠ 0 then some (drainedAttachments s) else none,
    reaction := none }

/-- Mirrors `providerSummary` computed in `handleSubmit`. -/
def providerSummaryOf (s : SessionState) : String :=
  (activeProvider s).label ++ " • " ++ (activeModel s).label

/-- The assistant-message content of `handleSubmit`:
`[line1, attachments.length ? line2 : undefined, line3].filter(Boolean).join("\n\n")`. -/
def assistantContent (providerSummary : String) (n : Nat) : String :=
  joinWith "\n\n" (List.filterMap id
    [some ("Pretending to call " ++ providerSummary ++ "."),
     if 0 < n then
       some ("I spotted " ++ toString n ++ " attachment" ++ (if 1 < n then "s" else "") ++
         ". Replace this with your vision/tool call.")
     else none,
     some "Swap this helper with your real API handler and stream tokens into the conversation."])

/-- The `assistantMessage` built synchronously by `handleSubmit` and captured
by its `setTimeout` closure; `aId` is its `createId()`. -/
def assistantMessageOf (aId : String) (s : SessionState) : ConversationMessage :=
  { id := aId, role := Role.assistant, name := "Nova", avatarFallback := "NO",
    markdown := some true, reaction := none,
    content := assistantContent (providerSummaryOf s) (drainedAttachments s).length }

/-- The summary factory passed to `promoteConversation` by
`refreshHistoryPreview`. -/
def refreshSummaryFactory (conversationId preview : String) (title : Option String)
    (existing : Option HistoryConversation) : HistoryConversation :=
  { id := (existing.map (fun e => e.id)).getD conversationId,
    title := title.getD ((existing.map (fun e => e.title)).getD "Untitled chat"),
    preview := truncateText preview,
    timestamp := "Just now" }

/-- Mirrors `refreshHistoryPreview`. -/
def refreshHistoryPreview (conversationId preview : String) (title : Option String)
    (s : SessionState) : SessionState :=
  { s with historyGroups :=
      (promoteConversation s.historyGroups conversationId
        (refreshSummaryFactory conversationId preview title)) }

/-- The accepted branch of `handleSubmit` (everything after the early
return); `uId` and `aId` are the two `createId()` results. -/
def submitAccepted (uId aId : String) (s : SessionState) : SessionState :=
  let conversationId := s.activeConversationId
  let conversationTitle := s.activeConversationTitle
  let userMessage := userMessageOf uId s
  let assistantMessage := assistantMessageOf aId s
  let s1 := updateConversationMessages conversationId
    (fun current => current ++ [userMessage]) s
  let s2 := refreshHistoryPreview conversationId
    (firstTruthy (jsTrim s.input)
      (attachmentsSummaryOpt (drainedAttachments s).length) "Sent a message")
    (some conversationTitle) s1
  { s2 with
    composerAttachments := [], input := "", copiedMessageId := none,
    isGenerating := true,
    pending := s2.pending ++ [(conversationId, assistantMessage)] }

/-- Mirrors `handleSubmit`: a no-op unless there is pending input and no
reply is in flight; otherwise the accepted branch runs and a completion is
scheduled. -/
def handleSubmit (uId aId : String) (s : SessionState) : SessionState :=
  if !hasPendingInput s || s.isGenerating then s else submitAccepted uId aId s

/-- The `setTimeout` callback of `handleSubmit` firing (after the fixed
600 ms delay): appends the captured assistant message to the captured
conversation and clears the in-flight flag.  Completions fire in scheduling
order because the delay is a fixed constant. -/
def completeDelayed (s : SessionState) : SessionState :=
  match s.pending with
  | [] => s
  | (conversationId, assistantMessage) :: rest =>
    let s1 := updateConversationMessages conversationId
      (fun current => current ++ [assistantMessage]) s
    { s1 with isGenerating := false, pending := rest }

/-- Mirrors `handleNewChat`; `newId` is the `createId()` for the new
conversation and `msgIds` are the identifiers consumed by
`createInitialMessages`.  Note the scheduled completions (`pending`) are not
cancelled. -/
def handleNewChat (newId : String) (msgIds : List String) (s : SessionState) : SessionState :=
  let conversationId := newId
  let conversationTitle := "Untitled chat " ++ toString s.chatCounter
  let s1 := { s with
    chatCounter := s.chatCounter + 1,
    conversations := setConv s.conversations conversationId (createInitialMessages msgIds),
    activeConversationId := conversationId,
    activeConversationTitle := conversationTitle,
    composerAttachments := [], input := "", copiedMessageId := none,
    isGenerating := false, isSidebarOpen := false }
  { s1 with historyGroups :=
      (promoteConversation s1.historyGroups conversationId
        (fun _ => { id := conversationId, title := conversationTitle,
                    preview := "Say hello to Nova to get started.",
                    timestamp := "Just now" })) }

/-- Mirrors `handleSelectConversation`; `placeholderMsgId` is the
`createId()` consumed when a placeholder conversation is materialized.  Note
`setIsGenerating(false)` runs here while the scheduled completions
(`pending`) are not cancelled. -/
def handleSelectConversation (conversation : HistoryConversation)
    (placeholderMsgId : String) (s : SessionState) : SessionState :=
  let s1 := { s with
    activeConversationId := conversation.id,
    activeConversationTitle := conversation.title,
    isSidebarOpen := false,
    composerAttachments := [], input := "", copiedMessageId := none,
    isGenerating := false }
  let s2 := { s1 with conversations :=
    (match lookupConv s1.conversations conversation.id with
     | some _ => s1.conversations
     | none =>
       setConv s1.conversations conversation.id
         (createPlaceholderConversation placeholderMsgId conversation.title
           conversation.preview)) }
  { s2 with historyGroups :=
      (promoteConversation s2.historyGroups conversation.id
        (fun existing => existing.getD
          { id := conversation.id, title := conversation.title,
            preview := conversation.preview, timestamp := conversation.timestamp })) }

/-- The per-message transform inside `toggleReaction`'s `map`. -/
def toggleMessageReaction (messageId : String) (reaction : Reaction)
    (message : ConversationMessage) : ConversationMessage :=
  if message.id = messageId then
    { message with reaction :=
        if message.reaction = some reaction then none else some reaction }
  else message

/-- The list-level body of `toggleReaction`. -/
def applyReaction (messageId : String) (reaction : Reaction)
    (current : List ConversationMessage) : List ConversationMessage :=
  current.map (toggleMessageReaction messageId reaction)

/-- Mirrors `toggleReaction` (operates on the active conversation). -/
def toggleReaction (messageId : String) (reaction : Reaction)
    (s : SessionState) : SessionState :=
  updateConversationMessages s.activeConversationId
    (applyReaction messageId reaction) s

/-- The payload delivered by the file/image source collaborator (name, MIME
type, byte size) together with the data URI produced by
`reader.readAsDataURL`. -/
structure FileData where
  name : String
  type : String
  size : Nat
  dataUrl : String
deriving DecidableEq

/-- The attachment object built in `addAttachmentFromFile`'s `reader.onload`
callback; `aid` is its `createId()` and `prevCount` the staged count at the
moment the callback runs (`file.name || "pasted-image-N.png"`, where the
empty string is falsy). -/
def stagedAttachmentOf (aid : String) (file : FileData) (prevCount : Nat) : Attachment :=
  { id := aid,
    name := if file.name ≠ "" then file.name
            else "pasted-image-" ++ toString (prevCount + 1) ++ ".png",
    type := file.type, size := file.size, preview := file.dataUrl }

/-- Mirrors `addAttachmentFromFile`'s externally observable effect: append
the encoded attachment to the staged list. -/
def addAttachmentFromFile (aid : String) (file : FileData) (s : SessionState) : SessionState :=
  { s with composerAttachments :=
      (s.composerAttachments ++
        [stagedAttachmentOf aid file s.composerAttachments.length]) }

/-- Mirrors `handleRemoveAttachment`. -/
def handleRemoveAttachment (attachmentId : String) (s : SessionState) : SessionState :=
  { s with composerAttachments :=
      (s.composerAttachments.filter
        (fun attachment => decide (attachment.id ≠ attachmentId))) }

/-- The composer `onValueChange` (typing into the textarea). -/
def setInput (value : String) (s : SessionState) : SessionState :=
  { s with input := value }

/-- The buffer mutations available after a drain: staging a new attachment,
removing one by identifier, and the clearing performed on conversation
switch or new chat. -/
inductive BufferOp where
  | stage (aid : String) (file : FileData)
  | remove (attachmentId : String)
  | clearAll
deriving DecidableEq

/-- Applies one buffer mutation to the session. -/
def applyBufferOp (op : BufferOp) (s : SessionState) : SessionState :=
  match op with
  | BufferOp.stage aid file => addAttachmentFromFile aid file s
  | BufferOp.remove attachmentId => handleRemoveAttachment attachmentId s
  | BufferOp.clearAll => { s with composerAttachments := [] }

/-- Mirrors the provider `select` handler together with the `useEffect` that
snaps the model back to the provider's first model when it is not offered by
the newly selected provider. -/
def handleSelectProvider (pid : String) (s : SessionState) : SessionState :=
  let s1 := { s with selectedProviderId := pid }
  let provider := (providers.find? (fun p => decide (p.id = pid))).getD providerOpenAI
  { s1 with selectedModelId :=
      (if provider.models.any (fun model => decide (model.id = s1.selectedModelId)) then
        s1.selectedModelId
      else (provider.models.headD { id := "", label := "" }).id) }

/-- Mirrors the model `select` handler. -/
def handleSelectModel (mid : String) (s : SessionState) : SessionState :=
  { s with selectedModelId := mid }

/-- The provider/model picker interactions available during the reply delay. -/
inductive SelectorOp where
  | pickProvider (pid : String)
  | pickModel (mid : String)
deriving DecidableEq

/-- Applies one picker interaction to the session. -/
def applySelectorOp (op : SelectorOp) (s : SessionState) : SessionState :=
  match op with
  | SelectorOp.pickProvider pid => handleSelectProvider pid s
  | SelectorOp.pickModel mid => handleSelectModel mid s

/-- Mirrors `groups[0]?.conversations[0]?.id` of `buildInitialConversationMap`. -/
def primaryIdOf (groups : List HistoryGroup) : Option String :=
  (groups.head?.bind (fun g => g.conversations.head?)).map (fun c => c.id)

/-- The `forEach` body of `buildInitialConversationMap`, walking the
flattened conversation list; `fresh` is the stream of `createId()` results
in call order and `k` the index of the next unconsumed one (the primary
conversation consumes three, a placeholder one). -/
def buildMapAux (fresh : Nat → String) (primaryId : Option String) :
    Nat → List HistoryConversation → ConversationMap → ConversationMap
  | _, [], m => m
  | k, c :: rest, m =>
    if primaryId = some c.id then
      buildMapAux fresh primaryId (k + 3) rest
        (setConv m c.id (createInitialMessages [fresh k, fresh (k + 1), fresh (k + 2)]))
    else
      buildMapAux fresh primaryId (k + 1) rest
        (setConv m c.id (createPlaceholderConversation (fresh k) c.title c.preview))

/-- Mirrors `buildInitialConversationMap`: the first listed conversation gets
the seeded intro thread, every other history conversation gets a placeholder
conversation, all built eagerly at startup. -/
def buildInitialConversationMap (fresh : Nat → String) (groups : List HistoryGroup) :
    ConversationMap :=
  buildMapAux fresh (primaryIdOf groups) 0 (allConvs groups) []

/-- A small concrete session used to instantiate theorems: one history
group, one stored conversation, idle composer. -/
def demoMessage : ConversationMessage :=
  { id := "m1", role := Role.assistant, name := "Nova", avatarFallback := "NO",
    content := "hello there", reaction := none }

/-- A second summary, not present in `demoState`'s conversation store. -/
def demoOtherConversation : HistoryConversation :=
  { id := "c2", title := "Chat two", preview := "second preview", timestamp := "3h ago" }

/-- Summary of the demo conversation that is stored in `demoState`. -/
def demoSummaryOne : HistoryConversation :=
  { id := "c1", title := "Chat one", preview := "first preview", timestamp := "2h ago" }

/-- Demo history index with two summaries in one group. -/
def demoGroups : List HistoryGroup :=
  [{ label := "Today", conversations := [demoSummaryOne, demoOtherConversation] }]

/-- Concrete idle session state for witnesses and counterexamples. -/
def demoState : SessionState :=
  { historyGroups := demoGroups,
    conversations := [("c1", [demoMessage])],
    activeConversationId := "c1",
    activeConversationTitle := "Chat one",
    chatCounter := 3,
    composerAttachments := [],
    copiedMessageId := none,
    input := "",
    isGenerating := false,
    selectedProviderId := "openai",
    selectedModelId := "gpt-4o",
    isSidebarOpen := false,
    pending := [] }

/-- A concrete staged attachment for witnesses. -/
def demoAttachment : Attachment :=
  { id := "att1", name := "shot.png", type := "image/png", size := 2048,
    preview := "data:image/png;base64,AAAA" }

theorem cloneHistoryGroups_eq (groups : List HistoryGroup) :
    cloneHistoryGroups groups = groups := by
  induction groups with
  | nil => rfl
  | cons g t ih =>
    have h1 : cloneHistoryGroups (g :: t) =
        ({ label := g.label, conversations := g.conversations.map id } : HistoryGroup) ::
          cloneHistoryGroups t := rfl
    rw [h1, ih, List.map_id]

theorem lookupConv_mapSet_self (t : ConversationMap) (cid : String)
    (v : List ConversationMessage)
    (ht : t.any (fun q => decide (q.1 = cid)) = true) :
    lookupConv (t.map (fun p => if p.1 = cid then (cid, v) else p)) cid = some v := by
  induction t with
  | nil => simp at ht
  | cons q t' ih =>
    by_cases hq : q.1 = cid
    · simp [lookupConv, hq]
    · simp only [List.any_cons, hq, decide_eq_true_eq, decide_False,
        Bool.false_or] at ht
      simp [lookupConv, hq, ih ht]

theorem lookupConv_append_single_self (m : ConversationMap) (cid : String)
    (v : List ConversationMessage)
    (hm : m.any (fun q => decide (q.1 = cid)) = false) :
    lookupConv (m ++ [(cid, v)]) cid = some v := by
  induction m with
  | nil => simp [lookupConv]
  | cons q t ih =>
    simp only [List.any_cons, Bool.or_eq_false_iff, decide_eq_false_iff_not] at hm
    simp [lookupConv, hm.1, ih (by simpa using hm.2)]

theorem lookupConv_setConv_self (m : ConversationMap) (cid : String)
    (v : List ConversationMessage) :
    lookupConv (setConv m cid v) cid = some v := by
  by_cases ha : m.any (fun q => decide (q.1 = cid)) = true
  · have h1 : setConv m cid v = m.map (fun p => if p.1 = cid then (cid, v) else p) := by
      unfold setConv; simp [ha]
    rw [h1]
    exact lookupConv_mapSet_self m cid v ha
  · have ha' : m.any (fun q => decide (q.1 = cid)) = false := by
      revert ha; cases m.any (fun q => decide (q.1 = cid)) <;> simp
    have h1 : setConv m cid v = m ++ [(cid, v)] := by
      unfold setConv; simp [ha']
    rw [h1]
    exact lookupConv_append_single_self m cid v ha'

theorem lookupConv_mapSet_ne (t : ConversationMap) (cid : String)
    (v : List ConversationMessage) (cid' : String) (h2 : ¬cid = cid') :
    lookupConv (t.map (fun p => if p.1 = cid then (cid, v) else p)) cid' =
      lookupConv t cid' := by
  induction t with
  | nil => rfl
  | cons q t' ih =>
    have hmap : List.map (fun p => if p.1 = cid then (cid, v) else p) (q :: t') =
        (if q.1 = cid then (cid, v) else q) ::
          List.map (fun p => if p.1 = cid then (cid, v) else p) t' := rfl
    rw [hmap]
    by_cases hq : q.1 = cid
    · have hq' : ¬q.1 = cid' := by rw [hq]; exact h2
      simp only [hq, if_true]
      simp [lookupConv, h2, hq', ih]
    · simp only [hq, if_false]
      by_cases hq' : q.1 = cid'
      · simp [lookupConv, hq']
      · simp [lookupConv, hq', ih]

theorem lookupConv_append_single_ne (m : ConversationMap) (cid : String)
    (v : List ConversationMessage) (cid' : String) (h2 : ¬cid = cid') :
    lookupConv (m ++ [(cid, v)]) cid' = lookupConv m cid' := by
  induction m with
  | nil => simp [lookupConv, h2]
  | cons q t ih =>
    by_cases hq : q.1 = cid'
    · simp [lookupConv, hq]
    · simp [lookupConv, hq, ih]

theorem lookupConv_setConv_ne (m : ConversationMap) (cid : String)
    (v : List ConversationMessage) (cid' : String) (h : cid' ≠ cid) :
    lookupConv (setConv m cid v) cid' = lookupConv m cid' := by
  have h2 : ¬cid = cid' := fun hh => h hh.symm
  unfold setConv
  by_cases ha : m.any (fun q => decide (q.1 = cid)) = true
  · simp only [ha, if_true]
    exact lookupConv_mapSet_ne m cid v cid' h2
  · simp only [ha, if_false]
    exact lookupConv_append_single_ne m cid v cid' h2

theorem anyKey_false_of_lookup_none (m : ConversationMap) (cid : String)
    (h : lookupConv m cid = none) :
    m.any (fun q => decide (q.1 = cid)) = false := by
  induction m with
  | nil => rfl
  | cons q t ih =>
    by_cases hq : q.1 = cid
    · simp [lookupConv, hq] at h
    · simp only [lookupConv, hq, if_false] at h
      simp [hq, ih h]

theorem setConv_of_lookup_none (m : ConversationMap) (cid : String)
    (v : List ConversationMessage) (h : lookupConv m cid = none) :
    setConv m cid v = m ++ [(cid, v)] := by
  unfold setConv
  simp [anyKey_false_of_lookup_none m cid h]

theorem mem_idsOfConvs_iff_any (cs : List HistoryConversation) (cid : String) :
    cid ∈ idsOfConvs cs ↔ cs.any (fun c => decide (c.id = cid)) = true := by
  simp [idsOfConvs, List.any_eq_true]

theorem count_eraseP_self (cs : List HistoryConversation) (cid : String)
    (h : cs.any (fun c => decide (c.id = cid)) = true) :
    (idsOfConvs (cs.eraseP (fun c => decide (c.id = cid)))).count cid + 1 =
      (idsOfConvs cs).count cid := by
  induction cs with
  | nil => simp at h
  | cons c t ih =>
    by_cases hc : c.id = cid
    · have herase : (c :: t).eraseP (fun c => decide (c.id = cid)) = t := by
        simp [List.eraseP_cons, hc]
      rw [herase]
      have hbeq : (c.id == cid) = true := by simp [hc]
      simp [idsOfConvs, List.count_cons, hbeq]
    · have ht : t.any (fun c => decide (c.id = cid)) = true := by
        simpa [List.any_cons, hc] using h
      have herase : (c :: t).eraseP (fun c => decide (c.id = cid)) =
          c :: t.eraseP (fun c => decide (c.id = cid)) := by
        simp [List.eraseP_cons, hc]
      rw [herase]
      have hbeq : (c.id == cid) = false := by simp [hc]
      have hstep := ih ht
      simp only [idsOfConvs, List.map_cons, List.count_cons, hbeq, if_false] at hstep ⊢
      omega

theorem count_eraseP_ne (cs : List HistoryConversation) (cid y : String)
    (hy : y ≠ cid) :
    (idsOfConvs (cs.eraseP (fun c => decide (c.id = cid)))).count y =
      (idsOfConvs cs).count y := by
  induction cs with
  | nil => rfl
  | cons c t ih =>
    by_cases hc : c.id = cid
    · have hby : (c.id == y) = false := by
        simp only [beq_eq_false_iff_ne, ne_eq, hc]
        exact fun hh => hy hh.symm
      have herase : (c :: t).eraseP (fun c => decide (c.id = cid)) = t := by
        simp [List.eraseP_cons, hc]
      rw [herase]
      simp only [idsOfConvs, List.map_cons, List.count_cons, hby, if_false]
      simp [idsOfConvs]
    · have herase : (c :: t).eraseP (fun c => decide (c.id = cid)) =
          c :: t.eraseP (fun c => decide (c.id = cid)) := by
        simp [List.eraseP_cons, hc]
      rw [herase]
      simp only [idsOfConvs, List.map_cons, List.count_cons]
      simp only [idsOfConvs] at ih
      rw [ih]

theorem count_filter_ne_self (cs : List HistoryConversation) (x : String) :
    (idsOfConvs (cs.filter (fun c => decide (c.id ≠ x)))).count x = 0 := by
  rw [List.count_eq_zero]
  intro hmem
  simp only [idsOfConvs, List.mem_map] at hmem
  obtain ⟨c, hc1, hc2⟩ := hmem
  rw [List.mem_filter] at hc1
  have hne : c.id ≠ x := by simpa using hc1.2
  exact hne hc2

theorem count_filter_ne_other (cs : List HistoryConversation) (x y : String)
    (hy : y ≠ x) :
    (idsOfConvs (cs.filter (fun c => decide (c.id ≠ x)))).count y =
      (idsOfConvs cs).count y := by
  induction cs with
  | nil => rfl
  | cons c t ih =>
    by_cases hc : c.id = x
    · have hby : (c.id == y) = false := by
        simp only [beq_eq_false_iff_ne, ne_eq, hc]
        exact fun hh => hy hh.symm
      have hfilter : (c :: t).filter (fun c => decide (c.id ≠ x)) =
          t.filter (fun c => decide (c.id ≠ x)) := by
        simp [List.filter_cons, hc]
      rw [hfilter, ih]
      simp [idsOfConvs, List.count_cons, hby]
    · have hfilter : (c :: t).filter (fun c => decide (c.id ≠ x)) =
          c :: t.filter (fun c => decide (c.id ≠ x)) := by
        simp [List.filter_cons, hc]
      rw [hfilter]
      simp only [idsOfConvs, List.map_cons, List.count_cons]
      simp only [idsOfConvs] at ih
      rw [ih]

theorem filter_ne_then_eq_nil (cs : List HistoryConversation) (x : String) :
    (cs.filter (fun c => decide (c.id ≠ x))).filter (fun c => decide (c.id = x)) = [] := by
  rw [List.filter_eq_nil_iff]
  intro c hc
  rw [List.mem_filter] at hc
  simpa using hc.2

theorem filter_eq_nil_of_not_mem (cs : List HistoryConversation) (x : String)
    (h : x ∉ idsOfConvs cs) :
    cs.filter (fun c => decide (c.id = x)) = [] := by
  rw [List.filter_eq_nil_iff]
  intro c hc
  simp only [decide_eq_true_eq]
  intro hcx
  refine h ?_
  simp only [idsOfConvs, List.mem_map]
  exact ⟨c, hc, hcx⟩

theorem findInGroups_id (gs : List HistoryGroup) (cid : String)
    (c : HistoryConversation) (h : findInGroups gs cid = some c) : c.id = cid := by
  induction gs with
  | nil => simp [findInGroups] at h
  | cons sec rest ih =>
    simp only [findInGroups] at h
    cases hf : sec.conversations.find? (fun c => decide (c.id = cid)) with
    | some c' =>
      rw [hf] at h
      cases h
      have := List.find?_some hf
      simpa using this
    | none =>
      rw [hf] at h
      exact ih h

theorem removeFromGroups_of_not_mem (gs : List HistoryGroup) (cid : String)
    (h : cid ∉ idsOf gs) : removeFromGroups gs cid = gs := by
  induction gs with
  | nil => rfl
  | cons sec rest ih =>
    simp only [idsOf, List.mem_append] at h
    push_neg at h
    have ha : sec.conversations.any (fun c => decide (c.id = cid)) = false := by
      cases hb : sec.conversations.any (fun c => decide (c.id = cid)) with
      | false => rfl
      | true => exact absurd ((mem_idsOfConvs_iff_any _ _).mpr hb) h.1
    simp only [removeFromGroups, ha]
    rw [ih h.2]
    simp

theorem removeFromGroups_eq_nil_iff (gs : List HistoryGroup) (cid : String) :
    removeFromGroups gs cid = [] ↔ gs = [] := by
  cases gs with
  | nil => simp [removeFromGroups]
  | cons sec rest =>
    simp only [removeFromGroups]
    by_cases ha : sec.conversations.any (fun c => decide (c.id = cid)) = true <;>
      simp [ha]

theorem count_remove_self (gs : List HistoryGroup) (cid : String)
    (h : cid ∈ idsOf gs) :
    (idsOf (removeFromGroups gs cid)).count cid + 1 = (idsOf gs).count cid := by
  induction gs with
  | nil => simp [idsOf] at h
  | cons sec rest ih =>
    by_cases ha : sec.conversations.any (fun c => decide (c.id = cid)) = true
    · simp only [removeFromGroups, ha, if_true]
      simp only [idsOf, List.count_append]
      have := count_eraseP_self sec.conversations cid ha
      omega
    · have hnotsec : cid ∉ idsOfConvs sec.conversations := by
        intro hmem
        exact ha ((mem_idsOfConvs_iff_any _ _).mp hmem)
      have hrest : cid ∈ idsOf rest := by
        simp only [idsOf, List.mem_append] at h
        exact h.resolve_left hnotsec
      simp only [removeFromGroups, ha, if_false]
      simp only [idsOf, List.count_append]
      have := ih hrest
      omega

theorem count_remove_ne (gs : List HistoryGroup) (cid y : String) (hy : y ≠ cid) :
    (idsOf (removeFromGroups gs cid)).count y = (idsOf gs).count y := by
  induction gs with
  | nil => rfl
  | cons sec rest ih =>
    by_cases ha : sec.conversations.any (fun c => decide (c.id = cid)) = true
    · simp only [removeFromGroups, ha, if_true]
      simp only [idsOf, List.count_append]
      rw [count_eraseP_ne sec.conversations cid y hy]
    · simp only [removeFromGroups, ha, if_false]
      simp only [idsOf, List.count_append]
      rw [ih]

theorem count_remove_zero (gs : List HistoryGroup) (cid : String)
    (hnd : (idsOf gs).Nodup) :
    (idsOf (removeFromGroups gs cid)).count cid = 0 := by
  by_cases h : cid ∈ idsOf gs
  · have h1 := count_remove_self gs cid h
    have h2 : (idsOf gs).count cid ≤ 1 := List.nodup_iff_count_le_one.mp hnd cid
    omega
  · rw [removeFromGroups_of_not_mem gs cid h]
    exact List.count_eq_zero.mpr h

theorem allConvs_filter_nil (gs : List HistoryGroup) (cid : String)
    (h : cid ∉ idsOf gs) :
    (allConvs gs).filter (fun c => decide (c.id = cid)) = [] := by
  induction gs with
  | nil => rfl
  | cons sec rest ih =>
    simp only [idsOf, List.mem_append] at h
    push_neg at h
    simp only [allConvs, List.filter_append]
    rw [filter_eq_nil_of_not_mem sec.conversations cid h.1, ih h.2]
    rfl

theorem promote_eq_insert (g : List HistoryGroup) (cid : String)
    (f : Option HistoryConversation → HistoryConversation) :
    promoteConversation g cid f =
      insertAtFront (f (findInGroups g cid))
        (if (removeFromGroups g cid).isEmpty then
          [{ label := "Today", conversations := [] }]
        else removeFromGroups g cid) := by
  unfold promoteConversation
  rw [cloneHistoryGroups_eq]

theorem promote_nil (cid : String) (f : Option HistoryConversation → HistoryConversation) :
    promoteConversation [] cid f = [{ label := "Today", conversations := [f none] }] := rfl

theorem promote_head (g : List HistoryGroup) (cid : String)
    (f : Option HistoryConversation → HistoryConversation) :
    (promoteConversation g cid f).head?.map (fun g0 => g0.conversations.head?) =
      some (some (f (findInGroups g cid))) := by
  rw [promote_eq_insert]
  cases hR : removeFromGroups g cid with
  | nil => simp [insertAtFront]
  | cons g0 gs => simp [insertAtFront]

theorem count_promote_self (g : List HistoryGroup) (cid : String)
    (f : Option HistoryConversation → HistoryConversation)
    (hnd : (idsOf g).Nodup) (hu : (f (findInGroups g cid)).id = cid) :
    (idsOf (promoteConversation g cid f)).count cid = 1 := by
  rw [promote_eq_insert]
  have hz := count_remove_zero g cid hnd
  cases hR : removeFromGroups g cid with
  | nil =>
    simp [insertAtFront, idsOf, idsOfConvs, List.count_cons, hu]
  | cons g0 gs =>
    rw [hR] at hz
    simp only [List.isEmpty_cons, if_false]
    simp only [insertAtFront, idsOf, idsOfConvs, List.map_cons, List.count_append,
      List.count_cons]
    simp only [idsOf, List.count_append] at hz
    have hfz := count_filter_ne_self g0.conversations cid
    simp only [idsOfConvs] at hfz
    rw [hu]
    simp only [beq_self_eq_true, if_true]
    omega

theorem count_promote_ne (g : List HistoryGroup) (cid : String)
    (f : Option HistoryConversation → HistoryConversation) (y : String)
    (hu : (f (findInGroups g cid)).id = cid) (hy : y ≠ cid) :
    (idsOf (promoteConversation g cid f)).count y = (idsOf g).count y := by
  rw [promote_eq_insert]
  have hbu : ((f (findInGroups g cid)).id == y) = false := by
    rw [hu]
    simp only [beq_eq_false_iff_ne, ne_eq]
    exact fun hh => hy hh.symm
  cases hR : removeFromGroups g cid with
  | nil =>
    have hg : g = [] := (removeFromGroups_eq_nil_iff g cid).mp hR
    subst hg
    simp [insertAtFront, idsOf, idsOfConvs, List.count_cons, hbu]
  | cons g0 gs =>
    have hcnt : (idsOfConvs g0.conversations).count y + (idsOf gs).count y =
        (idsOf g).count y := by
      have h0 := count_remove_ne g cid y hy
      rw [hR] at h0
      simpa [idsOf, List.count_append] using h0
    have hfo := count_filter_ne_other g0.conversations ((f (findInGroups g cid)).id) y
      (by rw [hu]; exact hy)
    simp only [List.isEmpty_cons, if_false]
    simp only [insertAtFront, idsOf, idsOfConvs, List.map_cons, List.count_append,
      List.count_cons, hbu]
    rw [if_neg Bool.false_ne_true]
    simp only [idsOfConvs] at hfo hcnt
    omega

theorem mem_promote (g : List HistoryGroup) (cid : String)
    (f : Option HistoryConversation → HistoryConversation)
    (hu : (f (findInGroups g cid)).id = cid) :
    cid ∈ idsOf (promoteConversation g cid f) := by
  rw [promote_eq_insert]
  cases hR : removeFromGroups g cid with
  | nil => simp [insertAtFront, idsOf, idsOfConvs, hu]
  | cons g0 gs => simp [insertAtFront, idsOf, idsOfConvs, hu]

theorem nodup_promote (g : List HistoryGroup) (cid : String)
    (f : Option HistoryConversation → HistoryConversation)
    (hnd : (idsOf g).Nodup) (hu : (f (findInGroups g cid)).id = cid) :
    (idsOf (promoteConversation g cid f)).Nodup := by
  rw [List.nodup_iff_count_le_one]
  intro a
  by_cases ha : a = cid
  · rw [ha, count_promote_self g cid f hnd hu]
  · rw [count_promote_ne g cid f a hu ha]
    exact List.nodup_iff_count_le_one.mp hnd a

theorem promote_filter_id (g : List HistoryGroup) (cid : String)
    (f : Option HistoryConversation → HistoryConversation)
    (hnd : (idsOf g).Nodup) (hu : (f (findInGroups g cid)).id = cid) :
    (allConvs (promoteConversation g cid f)).filter (fun c => decide (c.id = cid)) =
      [f (findInGroups g cid)] := by
  rw [promote_eq_insert]
  have hz := count_remove_zero g cid hnd
  cases hR : removeFromGroups g cid with
  | nil =>
    simp [insertAtFront, allConvs, hu]
  | cons g0 gs =>
    rw [hR] at hz
    simp only [idsOf, List.count_append] at hz
    have hnm0 : cid ∉ idsOfConvs g0.conversations := by
      rw [← List.count_eq_zero]
      omega
    have hnm1 : cid ∉ idsOf gs := by
      rw [← List.count_eq_zero]
      omega
    simp only [List.isEmpty_cons, if_false]
    simp only [insertAtFront, allConvs, List.filter_append, List.filter_cons, hu,
      decide_True, if_true]
    rw [allConvs_filter_nil gs cid hnm1]
    rw [filter_ne_then_eq_nil g0.conversations cid]
    rfl

/-- The condition the spec imposes on a summary factory: the summary it
builds carries the identifier of the conversation being promoted (the data
model requires a HistoryConversationSummary identifier to match its
conversation; all three call sites of `promoteConversation` satisfy it). -/
def FactoryOk (cid : String)
    (f : Option HistoryConversation → HistoryConversation) : Prop :=
  ∀ e : Option HistoryConversation, (∀ c, e = some c → c.id = cid) → (f e).id = cid

theorem factory_apply_id (g : List HistoryGroup) (cid : String)
    (f : Option HistoryConversation → HistoryConversation) (hf : FactoryOk cid f) :
    (f (findInGroups g cid)).id = cid :=
  hf _ (fun c hc => findInGroups_id g cid c hc)

/-- A whole sequence of `promoteConversation` calls, oldest first. -/
def promoteFold
    (ops : List (String × (Option HistoryConversation → HistoryConversation)))
    (g : List HistoryGroup) : List HistoryGroup :=
  ops.foldl (fun acc op => promoteConversation acc op.1 op.2) g

theorem nodup_promoteFold
    (ops : List (String × (Option HistoryConversation → HistoryConversation)))
    (g : List HistoryGroup) (hnd : (idsOf g).Nodup)
    (hops : ∀ op ∈ ops, FactoryOk op.1 op.2) :
    (idsOf (promoteFold ops g)).Nodup := by
  induction ops generalizing g with
  | nil => exact hnd
  | cons op rest ih =>
    have h1 : FactoryOk op.1 op.2 := hops op (List.mem_cons_self op rest)
    exact ih (promoteConversation g op.1 op.2)
      (nodup_promote g op.1 op.2 hnd (factory_apply_id g op.1 op.2 h1))
      (fun o ho => hops o (List.mem_cons_of_mem op ho))

theorem mem_promoteFold_of_mem
    (ops : List (String × (Option HistoryConversation → HistoryConversation)))
    (g : List HistoryGroup) (x : String)
    (hops : ∀ op ∈ ops, FactoryOk op.1 op.2) (hx : x ∈ idsOf g) :
    x ∈ idsOf (promoteFold ops g) := by
  induction ops generalizing g with
  | nil => exact hx
  | cons op rest ih =>
    have h1 : FactoryOk op.1 op.2 := hops op (List.mem_cons_self op rest)
    have hu := factory_apply_id g op.1 op.2 h1
    have hx' : x ∈ idsOf (promoteConversation g op.1 op.2) := by
      by_cases hxc : x = op.1
      · rw [hxc]
        exact mem_promote g op.1 op.2 hu
      · rw [← List.count_pos_iff]
        rw [count_promote_ne g op.1 op.2 x hu hxc]
        exact List.count_pos_iff.mpr hx
    exact ih (promoteConversation g op.1 op.2)
      (fun o ho => hops o (List.mem_cons_of_mem op ho)) hx'

theorem promoted_mem_promoteFold
    (ops : List (String × (Option HistoryConversation → HistoryConversation)))
    (g : List HistoryGroup)
    (hops : ∀ op ∈ ops, FactoryOk op.1 op.2)
    (op : String × (Option HistoryConversation → HistoryConversation))
    (hop : op ∈ ops) :
    op.1 ∈ idsOf (promoteFold ops g) := by
  induction ops generalizing g with
  | nil => simp at hop
  | cons o rest ih =>
    have h1 : FactoryOk o.1 o.2 := hops o (List.mem_cons_self o rest)
    have hu := factory_apply_id g o.1 o.2 h1
    rcases List.mem_cons.mp hop with hop1 | hop2
    · rw [hop1]
      exact mem_promoteFold_of_mem rest (promoteConversation g o.1 o.2) o.1
        (fun q hq => hops q (List.mem_cons_of_mem o hq))
        (mem_promote g o.1 o.2 hu)
    · exact ih (promoteConversation g o.1 o.2)
        (fun q hq => hops q (List.mem_cons_of_mem o hq)) hop2

/-- Whether a group contains a summary for `x`. -/
def groupHasId (x : String) (gr : HistoryGroup) : Bool :=
  gr.conversations.any (fun c => decide (c.id = x))

theorem countP_groups_zero (gs : List HistoryGroup) (x : String)
    (hx : x ∉ idsOf gs) : gs.countP (groupHasId x) = 0 := by
  induction gs with
  | nil => rfl
  | cons sec rest ih =>
    simp only [idsOf, List.mem_append] at hx
    push_neg at hx
    have ha : groupHasId x sec = false := by
      unfold groupHasId
      cases hb : sec.conversations.any (fun c => decide (c.id = x)) with
      | false => rfl
      | true => exact absurd ((mem_idsOfConvs_iff_any _ _).mpr hb) hx.1
    rw [List.countP_cons, ha]
    simp [ih hx.2]

theorem countP_groups_one (gs : List HistoryGroup) (x : String)
    (hnd : (idsOf gs).Nodup) (hx : x ∈ idsOf gs) :
    gs.countP (groupHasId x) = 1 := by
  induction gs with
  | nil => simp [idsOf] at hx
  | cons sec rest ih =>
    have hnd' : (idsOfConvs sec.conversations).Nodup ∧ (idsOf rest).Nodup ∧
        (idsOfConvs sec.conversations).Disjoint (idsOf rest) := by
      simpa [idsOf, List.nodup_append] using hnd
    by_cases hsec : x ∈ idsOfConvs sec.conversations
    · have ha : groupHasId x sec = true :=
        (mem_idsOfConvs_iff_any _ _).mp hsec
      have hnr : x ∉ idsOf rest := hnd'.2.2 hsec
      rw [List.countP_cons, ha]
      rw [countP_groups_zero rest x hnr]
      rfl
    · have ha : groupHasId x sec = false := by
        unfold groupHasId
        cases hb : sec.conversations.any (fun c => decide (c.id = x)) with
        | false => rfl
        | true => exact absurd ((mem_idsOfConvs_iff_any _ _).mpr hb) hsec
      have hrest : x ∈ idsOf rest := by
        simp only [idsOf, List.mem_append] at hx
        exact hx.resolve_left hsec
      rw [List.countP_cons, ha]
      simp [ih hnd'.2.1 hrest]

/-- A concrete promoted summary for the C3 witness. -/
def demoPromotedSummary : HistoryConversation :=
  { id := "c3", title := "Chat three", preview := "third preview", timestamp := "Just now" }

/-- A concrete promote call (identifier plus factory) for the C3 witness,
shaped like the factory `handleSelectConversation` passes. -/
def demoOp : String × (Option HistoryConversation → HistoryConversation) :=
  ("c3", fun existing => existing.getD demoPromotedSummary)

/-- A concrete one-call promote sequence for the C3 witness. -/
def demoOps : List (String × (Option HistoryConversation → HistoryConversation)) :=
  [demoOp]

/-- C3: starting from a history index whose identifiers are duplicate-free,
any sequence of promote calls (each factory keeping the promoted
conversation's identifier, as the data model requires and every call site
does) leaves the identifier list duplicate-free, keeps every promoted
identifier present, and any identifier occurring in the index occurs in
exactly one HistoryGroup — never lost, never duplicated across groups. -/
theorem C3_promote_preserves_unique_ids
    (g : List HistoryGroup)
    (ops : List (String × (Option HistoryConversation → HistoryConversation)))
    (hnd : (idsOf g).Nodup)
    (hops : ∀ op ∈ ops, FactoryOk op.1 op.2)
    (op : String × (Option HistoryConversation → HistoryConversation))
    (hop : op ∈ ops)
    (x : String) (hx : x ∈ idsOf (promoteFold ops g)) :
    (idsOf (promoteFold ops g)).Nodup ∧
    op.1 ∈ idsOf (promoteFold ops g) ∧
    (promoteFold ops g).countP (groupHasId x) = 1 :=
  have h1 := nodup_promoteFold ops g hnd hops
  ⟨h1, promoted_mem_promoteFold ops g hops op hop, countP_groups_one _ x h1 hx⟩

/-- C3 witness: the theorem instantiated at a concrete index and one
concrete promote call. -/
theorem C3_witness :
    (idsOf (promoteFold demoOps demoGroups)).Nodup ∧
    demoOp.1 ∈ idsOf (promoteFold demoOps demoGroups) ∧
    (promoteFold demoOps demoGroups).countP (groupHasId "c1") = 1 :=
  C3_promote_preserves_unique_ids demoGroups demoOps (by decide)
    (by
      intro op hop
      simp only [demoOps, List.mem_singleton] at hop
      subst hop
      intro e he
      cases e with
      | none => rfl
      | some c => exact he c rfl)
    demoOp (by simp [demoOps]) "c1" (by decide)

/-- C4: promote removes any existing summary for the identifier, applies the
factory to the found summary (or `none` when absent), inserts the result at
the front of the first group (creating a default first group when the index
is empty, so that the factory's chosen fields are kept verbatim), and the
clone it mutates is a faithful copy of the input (purity of the embedding is
definitional: the same arguments always give the same result). -/
theorem C4_promote_extract_reinsert (g : List HistoryGroup) (cid : String)
    (f : Option HistoryConversation → HistoryConversation)
    (hnd : (idsOf g).Nodup) (hid : (f (findInGroups g cid)).id = cid) :
    (promoteConversation g cid f).head?.map (fun g0 => g0.conversations.head?) =
      some (some (f (findInGroups g cid)))
    ∧ (g = [] → promoteConversation g cid f =
        [{ label := "Today", conversations := [f none] }])
    ∧ (allConvs (promoteConversation g cid f)).filter (fun c => decide (c.id = cid)) =
        [f (findInGroups g cid)]
    ∧ cloneHistoryGroups g = g :=
  ⟨promote_head g cid f,
   fun hg => by subst hg; exact promote_nil cid f,
   promote_filter_id g cid f hnd hid,
   cloneHistoryGroups_eq g⟩

theorem handleSubmit_of_generating (u a : String) (s : SessionState)
    (h : s.isGenerating = true) : handleSubmit u a s = s := by
  simp [handleSubmit, h]

theorem handleSubmit_accepted (u a : String) (s : SessionState)
    (hp : hasPendingInput s = true) (hg : s.isGenerating = false) :
    handleSubmit u a s = submitAccepted u a s := by
  simp [handleSubmit, hp, hg]

theorem submitAccepted_conversations (u a : String) (s : SessionState) :
    (submitAccepted u a s).conversations =
      setConv s.conversations s.activeConversationId
        (convAt s s.activeConversationId ++ [userMessageOf u s]) := rfl

theorem submitAccepted_pending (u a : String) (s : SessionState) :
    (submitAccepted u a s).pending =
      s.pending ++ [(s.activeConversationId, assistantMessageOf a s)] := rfl

theorem submitAccepted_isGenerating (u a : String) (s : SessionState) :
    (submitAccepted u a s).isGenerating = true := rfl

theorem convAt_submitAccepted_self (u a : String) (s : SessionState) :
    convAt (submitAccepted u a s) s.activeConversationId =
      convAt s s.activeConversationId ++ [userMessageOf u s] := by
  unfold convAt
  rw [submitAccepted_conversations, lookupConv_setConv_self]
  rfl

theorem completeDelayed_spec (s : SessionState) (cid : String)
    (msg : ConversationMessage) (rest : List (String × ConversationMessage))
    (h : s.pending = (cid, msg) :: rest) :
    convAt (completeDelayed s) cid = convAt s cid ++ [msg]
    ∧ (completeDelayed s).isGenerating = false
    ∧ (completeDelayed s).pending = rest
    ∧ ∀ cid2, cid2 ≠ cid → convAt (completeDelayed s) cid2 = convAt s cid2 := by
  have hc : completeDelayed s =
      { (updateConversationMessages cid (fun current => current ++ [msg]) s) with
        isGenerating := false, pending := rest } := by
    unfold completeDelayed
    rw [h]
  refine ⟨?_, ?_, ?_, ?_⟩
  · rw [hc]
    unfold convAt updateConversationMessages
    simp only []
    rw [lookupConv_setConv_self]
    rfl
  · rw [hc]
  · rw [hc]
  · intro cid2 h2
    rw [hc]
    unfold convAt updateConversationMessages
    simp only []
    rw [lookupConv_setConv_ne _ _ _ _ h2]

theorem select_pending (c : HistoryConversation) (pid : String) (s : SessionState) :
    (handleSelectConversation c pid s).pending = s.pending := rfl

theorem select_isGenerating (c : HistoryConversation) (pid : String) (s : SessionState) :
    (handleSelectConversation c pid s).isGenerating = false := rfl

theorem select_conversations (c : HistoryConversation) (pid : String) (s : SessionState) :
    (handleSelectConversation c pid s).conversations =
      (match lookupConv s.conversations c.id with
       | some _ => s.conversations
       | none =>
         setConv s.conversations c.id
           (createPlaceholderConversation pid c.title c.preview)) := rfl

theorem select_convAt_ne (c : HistoryConversation) (pid : String) (s : SessionState)
    (cid : String) (h : cid ≠ c.id) :
    convAt (handleSelectConversation c pid s) cid = convAt s cid := by
  unfold convAt
  rw [select_conversations]
  cases hl : lookupConv s.conversations c.id with
  | some v => rfl
  | none => rw [lookupConv_setConv_ne _ _ _ _ h]

theorem select_conversations_of_none (c : HistoryConversation) (pid : String)
    (s : SessionState) (hl : lookupConv s.conversations c.id = none) :
    (handleSelectConversation c pid s).conversations =
      s.conversations ++ [(c.id, createPlaceholderConversation pid c.title c.preview)] := by
  rw [select_conversations, hl]
  exact setConv_of_lookup_none s.conversations c.id _ hl

theorem newChat_pending (nid : String) (ms : List String) (s : SessionState) :
    (handleNewChat nid ms s).pending = s.pending := rfl

theorem newChat_isGenerating (nid : String) (ms : List String) (s : SessionState) :
    (handleNewChat nid ms s).isGenerating = false := rfl

theorem applyBufferOp_conversations (op : BufferOp) (s : SessionState) :
    (applyBufferOp op s).conversations = s.conversations := by
  cases op <;> rfl

theorem bufferFold_conversations (ops : List BufferOp) (s : SessionState) :
    (ops.foldl (fun st op => applyBufferOp op st) s).conversations = s.conversations := by
  induction ops generalizing s with
  | nil => rfl
  | cons op rest ih =>
    rw [List.foldl_cons, ih, applyBufferOp_conversations]

theorem applySelectorOp_conversations (op : SelectorOp) (s : SessionState) :
    (applySelectorOp op s).conversations = s.conversations := by
  cases op <;> rfl

theorem applySelectorOp_pending (op : SelectorOp) (s : SessionState) :
    (applySelectorOp op s).pending = s.pending := by
  cases op <;> rfl

theorem selectorFold_conversations (ops : List SelectorOp) (s : SessionState) :
    (ops.foldl (fun st op => applySelectorOp op st) s).conversations = s.conversations := by
  induction ops generalizing s with
  | nil => rfl
  | cons op rest ih =>
    rw [List.foldl_cons, ih, applySelectorOp_conversations]

theorem selectorFold_pending (ops : List SelectorOp) (s : SessionState) :
    (ops.foldl (fun st op => applySelectorOp op st) s).pending = s.pending := by
  induction ops generalizing s with
  | nil => rfl
  | cons op rest ih =>
    rw [List.foldl_cons, ih, applySelectorOp_pending]

theorem convAt_eq_of_conversations (s1 s2 : SessionState)
    (h : s1.conversations = s2.conversations) (cid : String) :
    convAt s1 cid = convAt s2 cid := by
  unfold convAt
  rw [h]

theorem drainedAttachments_length (s : SessionState) :
    (drainedAttachments s).length = s.composerAttachments.length := by
  unfold drainedAttachments
  rw [List.length_map]

/-- C4 witness: the theorem instantiated with the factory
`refreshHistoryPreview` really passes, at a concrete index. -/
theorem C4_witness :
    (promoteConversation demoGroups "c1"
        (refreshSummaryFactory "c1" "updated preview" (some "Chat one"))).head?.map
        (fun g0 => g0.conversations.head?) =
      some (some (refreshSummaryFactory "c1" "updated preview" (some "Chat one")
        (findInGroups demoGroups "c1")))
    ∧ (demoGroups = [] → promoteConversation demoGroups "c1"
        (refreshSummaryFactory "c1" "updated preview" (some "Chat one")) =
        [{ label := "Today", conversations :=
            [refreshSummaryFactory "c1" "updated preview" (some "Chat one") none] }])
    ∧ (allConvs (promoteConversation demoGroups "c1"
        (refreshSummaryFactory "c1" "updated preview" (some "Chat one")))).filter
        (fun c => decide (c.id = "c1")) =
        [refreshSummaryFactory "c1" "updated preview" (some "Chat one")
          (findInGroups demoGroups "c1")]
    ∧ cloneHistoryGroups demoGroups = demoGroups :=
  C4_promote_extract_reinsert demoGroups "c1"
    (refreshSummaryFactory "c1" "updated preview" (some "Chat one"))
    (by decide) (by decide)

/-- A session with a reply in flight, for the C1 witness. -/
def demoGenerating : SessionState :=
  { demoState with
    isGenerating := true
    pending := [("c1", demoMessage)] }

/-- C1 (amended): while the in-flight flag is true every submit request is a
no-op; but selecting a conversation or starting a new chat resets the flag to
false without cancelling the scheduled reply, so after such navigation new
submits are accepted again even though the reply is still pending. -/
theorem C1_flag_reset_on_navigation (s : SessionState) (hgen : s.isGenerating = true)
    (u a : String) (c : HistoryConversation) (pid nid : String) (ms : List String) :
    handleSubmit u a s = s
    ∧ (handleSelectConversation c pid s).isGenerating = false
    ∧ (handleSelectConversation c pid s).pending = s.pending
    ∧ (handleNewChat nid ms s).isGenerating = false
    ∧ (handleNewChat nid ms s).pending = s.pending :=
  ⟨handleSubmit_of_generating u a s hgen, rfl, rfl, rfl, rfl⟩

/-- C1 witness: the amended theorem at a concrete in-flight session. -/
theorem C1_witness :
    handleSubmit "u9" "a9" demoGenerating = demoGenerating
    ∧ (handleSelectConversation demoOtherConversation "p9" demoGenerating).isGenerating = false
    ∧ (handleSelectConversation demoOtherConversation "p9" demoGenerating).pending =
        demoGenerating.pending
    ∧ (handleNewChat "n9" ["i1", "i2", "i3"] demoGenerating).isGenerating = false
    ∧ (handleNewChat "n9" ["i1", "i2", "i3"] demoGenerating).pending =
        demoGenerating.pending :=
  C1_flag_reset_on_navigation demoGenerating rfl "u9" "a9" demoOtherConversation
    "p9" "n9" ["i1", "i2", "i3"]

/-- First submit of the C1 counterexample run (accepted: input "hi"). -/
def c1Submit1 : SessionState := handleSubmit "u1" "a1" (setInput "hi" demoState)

/-- The user switches conversation while the reply is pending. -/
def c1Switched : SessionState :=
  handleSelectConversation demoOtherConversation "p1" c1Submit1

/-- A second submit after the switch, still before the first reply fires. -/
def c1Submit2 : SessionState := handleSubmit "u2" "a2" (setInput "again" c1Switched)

/-- C1 counterexample: the claim says the in-flight flag stays true until the
reply resolves and that every further submit is rejected even if the user
switches conversation.  On the code, switching runs `setIsGenerating(false)`:
after the switch the flag is false while the reply is still pending (queue
length 1), and a second submit is accepted (queue length 2). -/
theorem C1_counterexample :
    c1Submit1.isGenerating = true
    ∧ c1Submit1.pending.length = 1
    ∧ c1Switched.isGenerating = false
    ∧ c1Switched.pending.length = 1
    ∧ c1Submit2.pending.length = 2
    ∧ c1Submit2.isGenerating = true := by
  decide

/-- Demo idle session with text typed into the composer. -/
def demoWithInput : SessionState := setInput "hello" demoState

/-- C2: an accepted submit schedules exactly one completion for the
conversation active at submit time; when the delay elapses the scheduled
assistant message is appended at the end of that same conversation — also
when the user has switched to some conversation `c` meanwhile — and the
in-flight flag is false afterwards; the switched-to conversation receives
nothing when it differs from the submit-time one. -/
theorem C2_assistant_append (s : SessionState) (u a : String)
    (c : HistoryConversation) (pid : String)
    (hp : hasPendingInput s = true) (hg : s.isGenerating = false)
    (hq : s.pending = []) :
    (handleSubmit u a s).pending = [(s.activeConversationId, assistantMessageOf a s)]
    ∧ (handleSubmit u a s).isGenerating = true
    ∧ (assistantMessageOf a s).role = Role.assistant
    ∧ convAt (completeDelayed (handleSubmit u a s)) s.activeConversationId =
        convAt (handleSubmit u a s) s.activeConversationId ++ [assistantMessageOf a s]
    ∧ (completeDelayed (handleSubmit u a s)).isGenerating = false
    ∧ (completeDelayed (handleSubmit u a s)).pending = []
    ∧ convAt (completeDelayed (handleSelectConversation c pid (handleSubmit u a s)))
        s.activeConversationId =
      convAt (handleSelectConversation c pid (handleSubmit u a s))
        s.activeConversationId ++ [assistantMessageOf a s]
    ∧ (completeDelayed (handleSelectConversation c pid
        (handleSubmit u a s))).isGenerating = false
    ∧ (c.id ≠ s.activeConversationId →
        convAt (completeDelayed (handleSelectConversation c pid (handleSubmit u a s)))
          c.id =
        convAt (handleSelectConversation c pid (handleSubmit u a s)) c.id) := by
  have heq := handleSubmit_accepted u a s hp hg
  have hpend : (handleSubmit u a s).pending =
      [(s.activeConversationId, assistantMessageOf a s)] := by
    rw [heq, submitAccepted_pending, hq]
    rfl
  have hsel : (handleSelectConversation c pid (handleSubmit u a s)).pending =
      [(s.activeConversationId, assistantMessageOf a s)] := by
    rw [select_pending, hpend]
  obtain ⟨d1, d2, d3, _⟩ :=
    completeDelayed_spec (handleSubmit u a s) _ _ _ hpend
  obtain ⟨e1, e2, _, e4⟩ :=
    completeDelayed_spec (handleSelectConversation c pid (handleSubmit u a s)) _ _ _ hsel
  refine ⟨hpend, ?_, rfl, d1, d2, d3, e1, e2, fun hne => e4 c.id hne⟩
  rw [heq]
  exact submitAccepted_isGenerating u a s

/-- C2 witness: the theorem at a concrete accepted submit ("hello", no
attachments) with a switch to another conversation while waiting. -/
theorem C2_witness :
    (handleSubmit "u1" "a1" demoWithInput).pending =
      [("c1", assistantMessageOf "a1" demoWithInput)]
    ∧ (handleSubmit "u1" "a1" demoWithInput).isGenerating = true
    ∧ (assistantMessageOf "a1" demoWithInput).role = Role.assistant
    ∧ convAt (completeDelayed (handleSubmit "u1" "a1" demoWithInput)) "c1" =
        convAt (handleSubmit "u1" "a1" demoWithInput) "c1" ++
          [assistantMessageOf "a1" demoWithInput]
    ∧ (completeDelayed (handleSubmit "u1" "a1" demoWithInput)).isGenerating = false
    ∧ (completeDelayed (handleSubmit "u1" "a1" demoWithInput)).pending = []
    ∧ convAt (completeDelayed (handleSelectConversation demoOtherConversation "p1"
          (handleSubmit "u1" "a1" demoWithInput))) "c1" =
        convAt (handleSelectConversation demoOtherConversation "p1"
          (handleSubmit "u1" "a1" demoWithInput)) "c1" ++
          [assistantMessageOf "a1" demoWithInput]
    ∧ (completeDelayed (handleSelectConversation demoOtherConversation "p1"
        (handleSubmit "u1" "a1" demoWithInput))).isGenerating = false
    ∧ (demoOtherConversation.id ≠ "c1" →
        convAt (completeDelayed (handleSelectConversation demoOtherConversation "p1"
          (handleSubmit "u1" "a1" demoWithInput))) demoOtherConversation.id =
        convAt (handleSelectConversation demoOtherConversation "p1"
          (handleSubmit "u1" "a1" demoWithInput)) demoOtherConversation.id) :=
  C2_assistant_append demoWithInput "u1" "a1" demoOtherConversation "p1"
    (by decide) rfl rfl

theorem string_data_append (a b : String) : (a ++ b).data = a.data ++ b.data := rfl

theorem attachmentsSummaryStr_ne_empty (n : Nat) : attachmentsSummaryStr n ≠ "" := by
  unfold attachmentsSummaryStr
  intro h
  have hd := congrArg String.data h
  rw [string_data_append, string_data_append, string_data_append] at hd
  have h1 := (List.append_eq_nil.mp ((List.append_eq_nil.mp
    ((List.append_eq_nil.mp hd).1)).1)).1
  exact absurd h1 (by decide)

theorem userMessage_content (u : String) (s : SessionState) :
    (userMessageOf u s).content =
      firstTruthy (jsTrim s.input)
        (attachmentsSummaryOpt s.composerAttachments.length) "Sent a message" := by
  have h1 : (userMessageOf u s).content =
      firstTruthy (jsTrim s.input)
        (attachmentsSummaryOpt (drainedAttachments s).length) "Sent a message" := rfl
  rw [h1, drainedAttachments_length]

/-- C7: an accepted submit appends a user message whose content is built from
the trimmed input, falling back to the attachment-count summary and then to
"Sent a message", in that priority order (stated for arbitrary trimmed text
`prompt` and attachment count `n`); with empty text and one staged attachment
the content is "Shared 1 attachment", and the content is never the empty
string. -/
theorem C7_user_content_priority (s : SessionState) (u a : String)
    (prompt : String) (n : Nat)
    (hp : hasPendingInput s = true) (hg : s.isGenerating = false) :
    convAt (handleSubmit u a s) s.activeConversationId =
      convAt s s.activeConversationId ++ [userMessageOf u s]
    ∧ (userMessageOf u s).content =
        firstTruthy (jsTrim s.input)
          (attachmentsSummaryOpt s.composerAttachments.length) "Sent a message"
    ∧ (prompt ≠ "" →
        firstTruthy prompt (attachmentsSummaryOpt n) "Sent a message" = prompt)
    ∧ (prompt = "" → 0 < n →
        firstTruthy prompt (attachmentsSummaryOpt n) "Sent a message" =
          attachmentsSummaryStr n)
    ∧ (prompt = "" → n = 0 →
        firstTruthy prompt (attachmentsSummaryOpt n) "Sent a message" =
          "Sent a message")
    ∧ (jsTrim s.input = "" → s.composerAttachments.length = 1 →
        (userMessageOf u s).content = "Shared 1 attachment")
    ∧ (userMessageOf u s).content ≠ "" := by
  refine ⟨?_, userMessage_content u s, ?_, ?_, ?_, ?_, ?_⟩
  · rw [handleSubmit_accepted u a s hp hg]
    exact convAt_submitAccepted_self u a s
  · intro h
    simp [firstTruthy, h]
  · intro h hn
    simp [firstTruthy, attachmentsSummaryOpt, h, hn, attachmentsSummaryStr_ne_empty n]
  · intro h hn
    simp [firstTruthy, attachmentsSummaryOpt, h, hn]
  · intro ht h1
    rw [userMessage_content u s, ht, h1]
    decide
  · rw [userMessage_content u s]
    unfold firstTruthy
    by_cases ht : jsTrim s.input = ""
    · have hn : 0 < s.composerAttachments.length := by
        simp [hasPendingInput, ht] at hp
        exact hp
      simp [ht, attachmentsSummaryOpt, hn, attachmentsSummaryStr_ne_empty]
    · simp [ht]

/-- Demo idle session with one staged attachment and empty composer text. -/
def demoWithAttachment : SessionState :=
  { demoState with composerAttachments := [demoAttachment] }

/-- C7 witness: the theorem at a session with one staged attachment and empty
text, and at the concrete priority inputs prompt "x", count 0. -/
theorem C7_witness :
    convAt (handleSubmit "u1" "a1" demoWithAttachment) "c1" =
      convAt demoWithAttachment "c1" ++ [userMessageOf "u1" demoWithAttachment]
    ∧ (userMessageOf "u1" demoWithAttachment).content =
        firstTruthy (jsTrim demoWithAttachment.input)
          (attachmentsSummaryOpt demoWithAttachment.composerAttachments.length)
          "Sent a message"
    ∧ ("x" ≠ "" →
        firstTruthy "x" (attachmentsSummaryOpt 0) "Sent a message" = "x")
    ∧ ("x" = "" → 0 < 0 →
        firstTruthy "x" (attachmentsSummaryOpt 0) "Sent a message" =
          attachmentsSummaryStr 0)
    ∧ ("x" = "" → 0 = 0 →
        firstTruthy "x" (attachmentsSummaryOpt 0) "Sent a message" =
          "Sent a message")
    ∧ (jsTrim demoWithAttachment.input = "" →
        demoWithAttachment.composerAttachments.length = 1 →
        (userMessageOf "u1" demoWithAttachment).content = "Shared 1 attachment")
    ∧ (userMessageOf "u1" demoWithAttachment).content ≠ "" :=
  C7_user_content_priority demoWithAttachment "u1" "a1" "x" 0 (by decide) rfl

theorem toggleReaction_convAt (mid : String) (r : Reaction) (s : SessionState) :
    convAt (toggleReaction mid r s) s.activeConversationId =
      applyReaction mid r (convAt s s.activeConversationId) := by
  unfold toggleReaction updateConversationMessages convAt
  rw [lookupConv_setConv_self]
  rfl

theorem applyReaction_noop (mid : String) (r : Reaction)
    (msgs : List ConversationMessage)
    (h : msgs.all (fun msg => decide (msg.id ≠ mid)) = true) :
    applyReaction mid r msgs = msgs := by
  induction msgs with
  | nil => rfl
  | cons m t ih =>
    simp only [List.all_cons, Bool.and_eq_true, decide_eq_true_eq] at h
    have hmap : applyReaction mid r (m :: t) =
        toggleMessageReaction mid r m :: applyReaction mid r t := rfl
    rw [hmap, ih (by simpa using h.2)]
    unfold toggleMessageReaction
    simp [h.1]

/-- C8: toggling a reaction maps the active conversation's messages through
the per-message 3-state toggle; for a message with the targeted identifier,
toggling the same reaction twice from a state other than that reaction ends
with no reaction, toggling over a different reaction replaces it, and a
toggle whose message identifier occurs nowhere in the conversation leaves the
conversation unchanged. -/
theorem C8_reaction_toggle (s : SessionState) (mid : String) (r r2 : Reaction)
    (m : ConversationMessage) (hdiff : r2 ≠ r) :
    convAt (toggleReaction mid r s) s.activeConversationId =
      applyReaction mid r (convAt s s.activeConversationId)
    ∧ (m.id = mid → m.reaction ≠ some r →
        (toggleMessageReaction mid r (toggleMessageReaction mid r m)).reaction = none)
    ∧ (m.id = mid → m.reaction = some r2 →
        (toggleMessageReaction mid r m).reaction = some r)
    ∧ ((convAt s s.activeConversationId).all (fun msg => decide (msg.id ≠ mid)) = true →
        convAt (toggleReaction mid r s) s.activeConversationId =
          convAt s s.activeConversationId) := by
  refine ⟨toggleReaction_convAt mid r s, ?_, ?_, ?_⟩
  · intro h1 h2
    simp [toggleMessageReaction, h1, h2]
  · intro h1 h2
    simp [toggleMessageReaction, h1, h2, hdiff]
  · intro hall
    rw [toggleReaction_convAt mid r s]
    exact applyReaction_noop mid r _ hall

/-- C8 witness: the theorem at the demo session and its stored message. -/
theorem C8_witness :
    convAt (toggleReaction "m1" Reaction.upvote demoState) "c1" =
      applyReaction "m1" Reaction.upvote (convAt demoState "c1")
    ∧ (demoMessage.id = "m1" → demoMessage.reaction ≠ some Reaction.upvote →
        (toggleMessageReaction "m1" Reaction.upvote
          (toggleMessageReaction "m1" Reaction.upvote demoMessage)).reaction = none)
    ∧ (demoMessage.id = "m1" → demoMessage.reaction = some Reaction.downvote →
        (toggleMessageReaction "m1" Reaction.upvote demoMessage).reaction =
          some Reaction.upvote)
    ∧ ((convAt demoState "c1").all (fun msg => decide (msg.id ≠ "m1")) = true →
        convAt (toggleReaction "m1" Reaction.upvote demoState) "c1" =
          convAt demoState "c1") :=
  C8_reaction_toggle demoState "m1" Reaction.upvote Reaction.downvote demoMessage
    (by decide)

/-- C9: an accepted submit drains value copies of the staged attachments into
the sent user message; those copies are complete (`copyAttachment` is the
identity on every field), and no later buffer mutation — staging, removing,
or clearing — changes any conversation, hence not the attachments of the
already-sent message. -/
theorem C9_drained_copies (s : SessionState) (u a : String) (ops : List BufferOp)
    (att : Attachment)
    (hp : hasPendingInput s = true) (hg : s.isGenerating = false)
    (hatt : s.composerAttachments ≠ []) :
    convAt (ops.foldl (fun st op => applyBufferOp op st) (handleSubmit u a s))
        s.activeConversationId =
      convAt (handleSubmit u a s) s.activeConversationId
    ∧ (convAt (handleSubmit u a s) s.activeConversationId).getLast? =
        some (userMessageOf u s)
    ∧ (userMessageOf u s).attachments = some (s.composerAttachments.map copyAttachment)
    ∧ copyAttachment att = att := by
  refine ⟨?_, ?_, ?_, rfl⟩
  · exact convAt_eq_of_conversations _ _ (bufferFold_conversations ops _) _
  · rw [handleSubmit_accepted u a s hp hg, convAt_submitAccepted_self]
    exact List.getLast?_concat _
  · have hlen : (drainedAttachments s).length ≠ 0 := by
      rw [drainedAttachments_length]
      intro h0
      exact hatt (List.eq_nil_of_length_eq_zero h0)
    have h1 : (userMessageOf u s).attachments =
        if (drainedAttachments s).length ≠ 0 then some (drainedAttachments s)
        else none := rfl
    rw [h1, if_pos hlen]
    rfl

/-- A concrete staged file for the C9 witness. -/
def demoFile : FileData :=
  { name := "next.png", type := "image/png", size := 100, dataUrl := "data:image/png;base64,BBBB" }

/-- C9 witness: the theorem at a session with one staged attachment, followed
by a stage, a remove, and a clear of the buffer. -/
theorem C9_witness :
    convAt ([BufferOp.stage "a2" demoFile, BufferOp.remove "att1",
        BufferOp.clearAll].foldl (fun st op => applyBufferOp op st)
        (handleSubmit "u1" "a1" demoWithAttachment)) "c1" =
      convAt (handleSubmit "u1" "a1" demoWithAttachment) "c1"
    ∧ (convAt (handleSubmit "u1" "a1" demoWithAttachment) "c1").getLast? =
        some (userMessageOf "u1" demoWithAttachment)
    ∧ (userMessageOf "u1" demoWithAttachment).attachments =
        some (demoWithAttachment.composerAttachments.map copyAttachment)
    ∧ copyAttachment demoAttachment = demoAttachment :=
  C9_drained_copies demoWithAttachment "u1" "a1"
    [BufferOp.stage "a2" demoFile, BufferOp.remove "att1", BufferOp.clearAll]
    demoAttachment (by decide) rfl (by decide)

/-- C10: the assistant reply appended when the delay elapses is exactly the
message computed synchronously at submit time — its content is the function
of the provider/model selection and the drained attachment count current at
submit — regardless of any provider or model picker interactions performed
during the delay. -/
theorem C10_reply_fixed_at_submit (s : SessionState) (u a : String)
    (ops : List SelectorOp)
    (hp : hasPendingInput s = true) (hg : s.isGenerating = false)
    (hq : s.pending = []) :
    convAt (completeDelayed (ops.foldl (fun st op => applySelectorOp op st)
        (handleSubmit u a s))) s.activeConversationId =
      convAt (ops.foldl (fun st op => applySelectorOp op st) (handleSubmit u a s))
        s.activeConversationId ++ [assistantMessageOf a s]
    ∧ (completeDelayed (ops.foldl (fun st op => applySelectorOp op st)
        (handleSubmit u a s))).isGenerating = false
    ∧ (assistantMessageOf a s).content =
        assistantContent (providerSummaryOf s) s.composerAttachments.length
    ∧ (assistantMessageOf a s).role = Role.assistant := by
  have hpend : (handleSubmit u a s).pending =
      [(s.activeConversationId, assistantMessageOf a s)] := by
    rw [handleSubmit_accepted u a s hp hg, submitAccepted_pending, hq]
    rfl
  have hfold : (ops.foldl (fun st op => applySelectorOp op st)
      (handleSubmit u a s)).pending =
      [(s.activeConversationId, assistantMessageOf a s)] := by
    rw [selectorFold_pending, hpend]
  obtain ⟨d1, d2, _, _⟩ := completeDelayed_spec _ _ _ _ hfold
  refine ⟨d1, d2, ?_, rfl⟩
  have h1 : (assistantMessageOf a s).content =
      assistantContent (providerSummaryOf s) (drainedAttachments s).length := rfl
  rw [h1, drainedAttachments_length]

/-- C10 witness: the theorem at a concrete submit with a provider change and
a model change during the delay. -/
theorem C10_witness :
    convAt (completeDelayed ([SelectorOp.pickProvider "anthropic",
        SelectorOp.pickModel "claude-3.5-haiku"].foldl
        (fun st op => applySelectorOp op st)
        (handleSubmit "u1" "a1" demoWithInput))) "c1" =
      convAt ([SelectorOp.pickProvider "anthropic",
        SelectorOp.pickModel "claude-3.5-haiku"].foldl
        (fun st op => applySelectorOp op st)
        (handleSubmit "u1" "a1" demoWithInput)) "c1" ++
        [assistantMessageOf "a1" demoWithInput]
    ∧ (completeDelayed ([SelectorOp.pickProvider "anthropic",
        SelectorOp.pickModel "claude-3.5-haiku"].foldl
        (fun st op => applySelectorOp op st)
        (handleSubmit "u1" "a1" demoWithInput))).isGenerating = false
    ∧ (assistantMessageOf "a1" demoWithInput).content =
        assistantContent (providerSummaryOf demoWithInput)
          demoWithInput.composerAttachments.length
    ∧ (assistantMessageOf "a1" demoWithInput).role = Role.assistant :=
  C10_reply_fixed_at_submit demoWithInput "u1" "a1"
    [SelectorOp.pickProvider "anthropic", SelectorOp.pickModel "claude-3.5-haiku"]
    (by decide) rfl rfl

theorem lookup_setConv_isSome (m : ConversationMap) (cid : String)
    (v : List ConversationMessage) (d : String)
    (h : (lookupConv m d).isSome = true ∨ d = cid) :
    (lookupConv (setConv m cid v) d).isSome = true := by
  by_cases hdc : d = cid
  · rw [hdc, lookupConv_setConv_self]
    rfl
  · rcases h with h | h
    · rw [lookupConv_setConv_ne _ _ _ _ hdc]
      exact h
    · exact absurd h hdc

theorem lookup_buildMapAux_isSome (fresh : Nat → String)
    (primaryId : Option String) (convs : List HistoryConversation) (k : Nat)
    (m : ConversationMap) (d : HistoryConversation)
    (hd : d ∈ convs ∨ (lookupConv m d.id).isSome = true) :
    (lookupConv (buildMapAux fresh primaryId k convs m) d.id).isSome = true := by
  induction convs generalizing k m with
  | nil =>
    rcases hd with h | h
    · simp at h
    · exact h
  | cons c rest ih =>
    have hnext : ∀ (v : List ConversationMessage),
        d ∈ rest ∨ (lookupConv (setConv m c.id v) d.id).isSome = true := by
      intro v
      rcases hd with h | h
      · rcases List.mem_cons.mp h with h1 | h2
        · right
          exact lookup_setConv_isSome m c.id v d.id (Or.inr (by rw [h1]))
        · left
          exact h2
      · right
        exact lookup_setConv_isSome m c.id v d.id (Or.inl h)
    by_cases hpc : primaryId = some c.id
    · have hstep : buildMapAux fresh primaryId k (c :: rest) m =
          buildMapAux fresh primaryId (k + 3) rest
            (setConv m c.id
              (createInitialMessages [fresh k, fresh (k + 1), fresh (k + 2)])) := by
        simp [buildMapAux, hpc]
      rw [hstep]
      exact ih (k + 3) _ (hnext _)
    · have hstep : buildMapAux fresh primaryId k (c :: rest) m =
          buildMapAux fresh primaryId (k + 1) rest
            (setConv m c.id
              (createPlaceholderConversation (fresh k) c.title c.preview)) := by
        simp [buildMapAux, hpc]
      rw [hstep]
      exact ih (k + 1) _ (hnext _)

/-- C5 (amended): the Conversation Store is populated eagerly at startup —
`buildInitialConversationMap` creates an entry for every conversation listed
in the history groups — while the lazy path exists only in
`handleSelectConversation`: selecting a summary whose identifier has no store
entry appends exactly one entry holding the single placeholder message built
from that summary's title and preview. -/
theorem C5_eager_store_lazy_select (fresh : Nat → String)
    (groups : List HistoryGroup) (d : HistoryConversation)
    (hd : d ∈ allConvs groups)
    (s : SessionState) (c : HistoryConversation) (pid : String)
    (hnew : lookupConv s.conversations c.id = none) :
    (lookupConv (buildInitialConversationMap fresh groups) d.id).isSome = true
    ∧ (handleSelectConversation c pid s).conversations =
        s.conversations ++ [(c.id, createPlaceholderConversation pid c.title c.preview)]
    ∧ (handleSelectConversation c pid s).conversations.length =
        s.conversations.length + 1
    ∧ lookupConv (handleSelectConversation c pid s).conversations c.id =
        some (createPlaceholderConversation pid c.title c.preview)
    ∧ (createPlaceholderConversation pid c.title c.preview).length = 1
    ∧ (createPlaceholderConversation pid c.title c.preview).head?.map
        (fun msg => msg.content) =
      some ("This is a placeholder view for **" ++ c.title ++ "**." ++ "\n" ++ "" ++
        "\n" ++ c.preview ++ "\n" ++ "" ++ "\n" ++
        "Load real messages here by persisting conversations and hydrating them when the user opens the thread.") := by
  have h2 := select_conversations_of_none c pid s hnew
  refine ⟨?_, h2, ?_, ?_, rfl, ?_⟩
  · exact lookup_buildMapAux_isSome fresh (primaryIdOf groups) (allConvs groups) 0 []
      d (Or.inl hd)
  · rw [h2]
    simp
  · rw [h2]
    exact lookupConv_append_single_self s.conversations c.id _
      (anyKey_false_of_lookup_none s.conversations c.id hnew)
  · have hhead : (createPlaceholderConversation pid c.title c.preview).head?.map
        (fun msg => msg.content) =
        some (joinWith "\n"
          ["This is a placeholder view for **" ++ c.title ++ "**.",
           "",
           c.preview,
           "",
           "Load real messages here by persisting conversations and hydrating them when the user opens the thread."]) := rfl
    rw [hhead]
    have hlit : ∀ x : String, "**.\n" ++ ("\n" ++ x) = "**.\n\n" ++ x := by
      intro x
      rw [← String.append_assoc]
      rfl
    simp [joinWith, String.append_assoc, hlit]

/-- The identifier stream used to build the seeded startup state. -/
def seedFresh : Nat → String := fun n => "seed-" ++ toString n

/-- The component's initial session state, assembled from its `useState`
initializers (seed history, eagerly built conversation map, first seed
conversation active, chat counter past the seed count, first provider and
model selected). -/
def seededState : SessionState :=
  { historyGroups := cloneHistoryGroups historySeed,
    conversations := buildInitialConversationMap seedFresh historySeed,
    activeConversationId := (primaryIdOf historySeed).getD (createId []),
    activeConversationTitle :=
      findConversationTitle historySeed ((primaryIdOf historySeed).getD (createId [])),
    chatCounter :=
      (historySeed.foldl (fun total sec => total + sec.conversations.length) 0) + 1,
    composerAttachments := [],
    copiedMessageId := none,
    input := "",
    isGenerating := false,
    selectedProviderId := providerOpenAI.id,
    selectedModelId := (providerOpenAI.models.headD { id := "", label := "" }).id,
    isSidebarOpen := false,
    pending := [] }

/-- The "week-2" summary of the seed (a conversation the user never opened). -/
def week2Summary : HistoryConversation :=
  { id := "week-2", title := "Growth experiment doc",
    preview := "Mapped out hypotheses, guardrail metrics, and rollout cadence.",
    timestamp := "5 days ago" }

/-- C5 counterexample: the claim says store entries for history conversations
are created lazily on first open, not eagerly at startup.  On the code,
`buildInitialConversationMap` eagerly creates an entry for every seed
conversation: at startup the store already holds all five entries, including
one for the never-opened "week-2", and selecting "week-2" adds nothing. -/
theorem C5_counterexample :
    (lookupConv seededState.conversations "week-2").isSome = true
    ∧ seededState.conversations.length = 5
    ∧ (handleSelectConversation week2Summary "p1" seededState).conversations.length = 5 := by
  decide

/-- C5 witness: the amended theorem at the seed history with the never-opened
"week-2" entry, and at a demo state where the selected identifier is absent. -/
theorem C5_witness :
    (lookupConv (buildInitialConversationMap seedFresh historySeed)
      week2Summary.id).isSome = true
    ∧ (handleSelectConversation demoOtherConversation "p1" demoState).conversations =
        demoState.conversations ++
          [(demoOtherConversation.id,
            createPlaceholderConversation "p1" demoOtherConversation.title
              demoOtherConversation.preview)]
    ∧ (handleSelectConversation demoOtherConversation "p1" demoState).conversations.length =
        demoState.conversations.length + 1
    ∧ lookupConv (handleSelectConversation demoOtherConversation "p1"
        demoState).conversations demoOtherConversation.id =
        some (createPlaceholderConversation "p1" demoOtherConversation.title
          demoOtherConversation.preview)
    ∧ (createPlaceholderConversation "p1" demoOtherConversation.title
        demoOtherConversation.preview).length = 1
    ∧ (createPlaceholderConversation "p1" demoOtherConversation.title
        demoOtherConversation.preview).head?.map (fun msg => msg.content) =
      some ("This is a placeholder view for **" ++ demoOtherConversation.title ++
        "**." ++ "\n" ++ "" ++ "\n" ++ demoOtherConversation.preview ++ "\n" ++ "" ++
        "\n" ++
        "Load real messages here by persisting conversations and hydrating them when the user opens the thread.") :=
  C5_eager_store_lazy_select seedFresh historySeed week2Summary (by decide)
    demoState demoOtherConversation "p1" (by decide)

/-- C6 (amended): `createId` is a pure function of the random draw — it keeps
only the first eight base-36 fractional digits — so two calls return equal
identifiers exactly when their draws agree on those first eight digits;
uniqueness across calls is therefore not guaranteed. -/
theorem C6_createId_truncation (d1 d2 : List Char) :
    createId d1 = createId d2 ↔ d1.take 8 = d2.take 8 := by
  unfold createId
  constructor
  · intro h
    injection h
  · intro h
    rw [h]

/-- C6 counterexample: two distinct random draws — base-36 renderings
`0.abcdefgh` and `0.abcdefgh1` — are mapped by `createId` to the same
identifier, refuting the claim that every call returns a value no earlier
call has returned. -/
theorem C6_counterexample :
    "abcdefgh".data ≠ "abcdefgh1".data
    ∧ createId "abcdefgh".data = createId "abcdefgh1".data := by
  decide

end Chatbot
